import Mathlib

/-!
# Verification of the refactoring-swarm pipeline against its specification

This file gives a shallow embedding, in Lean 4, of the parts of the
refactoring-swarm repository that the specification's testable claims are
about, and proves or refutes each claim against that embedding.

Embedded components (each definition carries a pointer to the source
location it was translated from):

* the sandbox path guards (`src/tools/sandbox_manager.py`,
  `src/tools/file_tools.py`);
* the experiment logger (`src/utils/logger.py`);
* the fix application routines (`src/agents/fixer_agent.py`,
  `src/tools/code_modifier.py`);
* the LLM-output parsers of the Judge and the Auditor
  (`src/agents/judge_agent.py`, `src/agents/auditor_agent.py`);
* the orchestrator's self-healing loop (`src/orchestrator.py`);
* the rate limiting logic (`src/agents/base_agent.py`,
  `src/utils/quota_manager.py`).

External boundaries (the Python standard library's JSON decoder, the LLM,
the OS clock, the filesystem) enter the embedding as explicit parameters,
so every theorem is stated over the repository's own logic.
-/

set_option autoImplicit false

namespace Swarm

/-! ## String helpers mirroring Python string primitives -/

/-- Does `needle` occur as a prefix-at-some-position of `hay`?  This is the
Python expression `needle in hay` (substring containment) on
`List Char` data. -/
def occursIn (needle : List Char) : List Char → Bool
  | [] => needle.isEmpty
  | c :: rest => needle.isPrefixOf (c :: rest) || occursIn needle rest

/-- Python `needle in hay` for strings: byte-for-byte substring test. -/
def strContains (hay needle : String) : Bool :=
  occursIn needle.data hay.data

/-- Python `hay.replace(needle, new, 1)`: replace the leftmost occurrence of
`needle` in `hay` by `new` (with Python's convention that an empty `needle`
matches at position 0). -/
def replaceFirstL (needle new : List Char) : List Char → List Char
  | [] => if needle.isEmpty then new else []
  | c :: rest =>
    if needle.isPrefixOf (c :: rest) then new ++ (c :: rest).drop needle.length
    else c :: replaceFirstL needle new rest

/-- Python `hay.replace(needle, new, 1)` on `String`. -/
def pyReplaceFirst (hay needle new : String) : String :=
  ⟨replaceFirstL needle.data new.data hay.data⟩

/-- Index of the first occurrence of `needle` in `hay`
(`hay.find(needle)` when it does not return `-1`). -/
def firstOcc (needle : List Char) : List Char → Option Nat
  | [] => if needle.isEmpty then some 0 else none
  | c :: rest =>
    if needle.isPrefixOf (c :: rest) then some 0
    else (firstOcc needle rest).map (· + 1)

/-- The six characters Python's `str.strip()` removes by default
(ASCII range). -/
def isPySpace (c : Char) : Bool :=
  c = ' ' || c = '\t' || c = '\n' || c = '\r' || c = (Char.ofNat 11) || c = (Char.ofNat 12)

/-- Python `s.strip()` on character lists. -/
def pyStrip (s : List Char) : List Char :=
  ((s.dropWhile isPySpace).reverse.dropWhile isPySpace).reverse

/-- Python `s[:500]`. -/
def pyTake500 (s : String) : String := ⟨s.data.take 500⟩

/-! ## Sandbox path guards

`src/tools/sandbox_manager.py`, lines 14-38, and
`src/tools/file_tools.py`, lines 21-48.  Both functions first resolve the
candidate path and the sandbox root to absolute strings:
`is_path_in_sandbox` uses `os.path.normpath(os.path.abspath(os.path.realpath(.)))`
(symlinks resolved), while `is_safe_path` uses only `os.path.abspath(.)`
(symlinks NOT resolved).  Resolution is OS behaviour, so the embeddings
below take the already-resolved absolute strings as inputs and embed the
acceptance decision each function then makes; acceptance `false` means the
Python function raises `SecurityError`. -/

/-- Embedding of `is_path_in_sandbox` (src/tools/sandbox_manager.py line 33): accept iff
`abs_path.startswith(abs_sandbox + os.sep) or abs_path == abs_sandbox`. -/
def is_path_in_sandbox (abs_path abs_sandbox : String) : Bool :=
  (abs_sandbox.data ++ ['/']).isPrefixOf abs_path.data
    || abs_path.data == abs_sandbox.data

/-- Embedding of `is_safe_path` (src/tools/file_tools.py line 39): accept iff
`abs_path.startswith(abs_sandbox)` — a naive prefix test, with no
separator appended and no equality special case. -/
def is_safe_path (abs_path abs_sandbox : String) : Bool :=
  abs_sandbox.data.isPrefixOf abs_path.data

/-! ## Orchestrator self-healing loop

`src/orchestrator.py`, `RefactoringOrchestrator.run`, lines 52-159, with
`MAX_ITERATIONS` from `src/config.py` line 44.  The Auditor, Fixer and
Judge delegate to an external LLM, so the loop is embedded parametrically:
`fixOk i` is what the fixer stage `_run_fixer` returns at iteration `i`
(line 114), and `dec i` is `judge_decision.get("decision", "RETRY")` at
iteration `i` (line 126).  The result record keeps the `status` and
`iterations` fields of the returned dictionary plus two instrumentation
counters (how many times the fixer stage and the judge stage ran), which
the Python code performs as calls at lines 114 and 124. -/

/-- Constant `MAX_ITERATIONS` (src/config.py line 44). -/
def MAX_ITERATIONS : Nat := 10

/-- Abstraction of `self.auditor.analyze(...)` as consumed by `run`
(lines 84-96): either the dictionary contains an `"error"` key, or it
carries a `total_issues` count. -/
inductive AuditOutcome where
  | err
  | ok (totalIssues : Nat)

/-- The observable outcome of `RefactoringOrchestrator.run`: the
`status` and `iterations` fields of the returned dictionary (there is no
`iterations` key on the audit-error path, hence the `Option`), plus
counters of fixer-stage and judge-stage invocations. -/
structure OrchResult where
  status : String
  iterations : Option Nat
  fixerStageCalls : Nat
  judgeStageCalls : Nat
deriving DecidableEq, Repr

/-- The `for iteration in range(1, MAX_ITERATIONS + 1)` loop of `run`
(lines 105-147), with `i` the current iteration number and `rem` the
number of iterations still available.  Each entered iteration first runs
the fixer stage; on fixer failure the Python code `break`s out (line 118)
and falls through to the `MAX_ITERATIONS` return at lines 155-159, which
reports `iterations = MAX_ITERATIONS` unconditionally.  Otherwise the
judge stage runs; decision `"SUCCESS"` returns at lines 138-143 with
`iterations = i`, and any other decision continues the loop. -/
def loopFrom (fixOk : Nat → Bool) (dec : Nat → String)
    (fcalls jcalls : Nat) : Nat → Nat → OrchResult
  | _, 0 => ⟨"MAX_ITERATIONS", some MAX_ITERATIONS, fcalls, jcalls⟩
  | i, rem + 1 =>
    if fixOk i then
      if dec i = "SUCCESS" then ⟨"SUCCESS", some i, fcalls + 1, jcalls + 1⟩
      else loopFrom fixOk dec (fcalls + 1) (jcalls + 1) (i + 1) rem
    else ⟨"MAX_ITERATIONS", some MAX_ITERATIONS, fcalls + 1, jcalls⟩

/-- Embedding of `RefactoringOrchestrator.run` (src/orchestrator.py lines 84-159):
audit error returns `{"status": "FAILED", ...}` (line 88); zero issues
returns `{"status": "SUCCESS", "iterations": 0, ...}` (line 96) without
entering the loop; otherwise the self-healing loop runs starting at
iteration 1 with `MAX_ITERATIONS` iterations available. -/
def run (audit : AuditOutcome) (fixOk : Nat → Bool) (dec : Nat → String) :
    OrchResult :=
  match audit with
  | .err => ⟨"FAILED", none, 0, 0⟩
  | .ok totalIssues =>
    if totalIssues = 0 then ⟨"SUCCESS", some 0, 0, 0⟩
    else loopFrom fixOk dec 0 0 1 MAX_ITERATIONS

/-! ## Experiment logger

`src/utils/logger.py`, `log_experiment` (lines 47-147) and
`validate_log_entry` (lines 196-222).  A log entry is modelled by the
set of top-level keys of the written dictionary together with the set of
keys of its `details` dictionary; the log file's `experiments` array is a
list of such entries.  `uuid.uuid4()` and `datetime.now()` are external,
so the entry's key set — which is what validation inspects — is what the
model tracks. -/

/-- The exceptions `log_experiment` can raise during its validation phase
(lines 84-110), before it touches the log file. -/
inductive LogError where
  | invalidAction
  | missingInputPrompt
  | missingOutputResponse
deriving DecidableEq, Repr

/-- A written log entry: its top-level keys and the keys of `details`. -/
structure LogEntry where
  keys : List String
  detailKeys : List String
deriving DecidableEq, Repr

/-- Enumeration `ActionType` (src/utils/logger.py lines 29-36). -/
inductive ActionType where
  | ANALYSIS
  | GENERATION
  | DEBUG
  | FIX
deriving DecidableEq, Repr

/-- Embedding of `log_experiment` (src/utils/logger.py lines 47-147), with the
`details` argument abstracted to its key set.  The call is made with an
`ActionType` member, so the action validation at lines 84-94 always
passes.  Lines 98-110 then raise `ValueError` if `input_prompt` or
`output_response` is missing from `details` — before `_ensure_log_file`
and the read-modify-write of the log (lines 113-147), so on rejection the
log is returned unchanged.  On success the entry built at lines 116-124,
whose top-level keys are exactly `id`, `timestamp`, `agent_name`,
`model_used`, `action`, `details`, `status`, is appended. -/
def log_experiment (detailKeys : List String) (log : List LogEntry) :
    Option LogError × List LogEntry :=
  if "input_prompt" ∉ detailKeys then (some .missingInputPrompt, log)
  else if "output_response" ∉ detailKeys then (some .missingOutputResponse, log)
  else
    (none,
      log ++ [⟨["id", "timestamp", "agent_name", "model_used", "action",
                "details", "status"], detailKeys⟩])

/-- Embedding of `validate_log_entry` (src/utils/logger.py lines 196-222): all seven
top-level fields present and `details` carries `input_prompt` and
`output_response`. -/
def validate_log_entry (entry : LogEntry) : Bool :=
  (["id", "timestamp", "agent_name", "model_used", "action", "details",
    "status"].all (fun f => f ∈ entry.keys))
    && "input_prompt" ∈ entry.detailKeys
    && "output_response" ∈ entry.detailKeys

/-! ## `FixerAgent.apply_fix`

`src/agents/fixer_agent.py`, lines 189-278.  The fix dictionary's three
relevant entries are modelled with `Option String` (`fix.get(k)` is `None`
when the key is absent); the file system is modelled by the content of the
one file the fix names (`none` when `os.path.exists` is false).  The
routine's own calls to `log_experiment` are embedded through the logger
model above: its success-path `details` has keys
`{file, explanation, confidence}` (lines 248-252) and its exception
handler's `details` has keys `{file, error, error_type}` (lines 267-271). -/

/-- The fields of a fix dictionary consumed by `apply_fix`. -/
structure Fix where
  file : Option String
  original_code : Option String
  fixed_code : Option String

/-- What a call to `FixerAgent.apply_fix` does: either it returns a result
dictionary with the given `status` and `message` fields, or an exception
escapes to the caller. -/
inductive ApplyFixOutcome where
  | result (status message : String)
  | raised (e : LogError)
deriving DecidableEq, Repr

/-- Embedding of `FixerAgent.apply_fix` (src/agents/fixer_agent.py lines 189-278).
Returns the outcome, the file content after the call, and the log after
the call.  Control flow, in source order: missing-field check (lines
204-208, where an empty `file` string is falsy), existence check (lines
210-214), verbatim-presence check of `original_code` (lines 222-226),
dry-run return (lines 228-234), `content.replace(original_code,
fixed_code, 1)` written back (lines 237-241), then the success-path
`log_experiment` call (lines 244-254); if that raises, the handler at
lines 262-278 logs again and, if that logging raises too, the exception
propagates. -/
def FixerAgent.apply_fix (fix : Fix) (fileContent : Option String)
    (dryRun : Bool) (log : List LogEntry) :
    ApplyFixOutcome × Option String × List LogEntry :=
  match fix.file, fix.original_code, fix.fixed_code with
  | some f, some o, some x =>
    if f = "" then
      (.result "ERROR" "Missing required fields: file, original_code, or fixed_code",
        fileContent, log)
    else
      match fileContent with
      | none => (.result "ERROR" "File not found", fileContent, log)
      | some content =>
        if strContains content o = false then
          (.result "ERROR" "Original code not found in file - code may have changed",
            some content, log)
        else if dryRun then
          (.result "DRY_RUN" "Fix validated but not applied (dry run mode)",
            some content, log)
        else
          let newContent := pyReplaceFirst content o x
          match log_experiment ["file", "explanation", "confidence"] log with
          | (none, log₁) =>
            (.result "SUCCESS" "Fix applied successfully", some newContent, log₁)
          | (some _, log₁) =>
            match log_experiment ["file", "error", "error_type"] log₁ with
            | (none, log₂) =>
              (.result "ERROR" "Failed to apply fix", some newContent, log₂)
            | (some e₂, log₂) => (.raised e₂, some newContent, log₂)
  | _, _, _ =>
    (.result "ERROR" "Missing required fields: file, original_code, or fixed_code",
      fileContent, log)

/-! ## `code_modifier.apply_fix`

`src/tools/code_modifier.py`, lines 73-182.  `validate_python_syntax`
wraps `ast.parse`, an external boundary, so the syntax validator enters
the model as a parameter `validate : String → Bool`; the sandbox check
`is_safe_path` at line 96 is reflected by a `pathOk` flag (its input is
the OS-resolved path), and success of the filesystem write at line 131 by
`writeOk`.  All of this function's own `log_experiment` calls pass
`details` containing both `input_prompt` and `output_response`, so none
of them raises and the logger is omitted here.  Note the backup call at
line 125 names `create_file_backup`, which `src/tools/file_tools.py` does
not define. -/

/-- Outcome of `code_modifier.apply_fix`: the `success` field of the
returned dictionary and the file content after the call. -/
structure CMResult where
  success : Bool
  content : String
deriving DecidableEq, Repr

/-- Embedding of `code_modifier.apply_fix` (src/tools/code_modifier.py lines 73-182):
raise `SecurityError` if the path escapes the sandbox (line 96); return
`success = False` without writing when `validate_python_syntax` rejects
`fixed_code` (lines 99-120); otherwise write `fixed_code` as the new file
content (line 131), with a failing write caught at lines 163-182 and
reported as `success = False`. -/
def CodeModifier.apply_fix (validate : String → Bool) (pathOk : Bool)
    (fixed_code content : String) (writeOk : Bool) :
    Except String CMResult :=
  if pathOk = false then .error "SecurityError"
  else if validate fixed_code = false then .ok ⟨false, content⟩
  else if writeOk then .ok ⟨true, fixed_code⟩
  else .ok ⟨false, content⟩

/-- A necessary condition for `ast.parse` to succeed: every syntactically
valid Python module has balanced round parentheses.  Used as a concrete
sound abstraction of the syntax validator in counterexamples. -/
def balAux : List Char → Int → Bool
  | [], n => n == 0
  | c :: rest, n =>
    if c = '(' then balAux rest (n + 1)
    else if c = ')' then decide (0 < n) && balAux rest (n - 1)
    else balAux rest n

/-- Balanced-parentheses check on strings (see `balAux`). -/
def balancedParens (s : String) : Bool := balAux s.data 0

/-! ## LLM-output parsers of the Judge and the Auditor

`JudgmentOutputParser.parse` (src/agents/judge_agent.py lines 17-85) and
`JSONOutputParser.parse` (src/agents/auditor_agent.py lines 18-67).  Both
strip one layer of markdown fencing, call `json.loads` inside a
`try ... except json.JSONDecodeError`, and then normalize the decoded
value with dynamically-typed dictionary operations.  `json.loads` is the
Python standard library, an external boundary, so it enters the model as
a parameter `loads : String → Except String Json`; the normalization code
is the repository's and is embedded operation by operation, with
dynamic-type failures (`TypeError`, `AttributeError`, `KeyError`) made
explicit, since only `json.JSONDecodeError` is caught. -/

/-- JSON values (decoded Python objects): `None`, `bool`, number, `str`,
`list`, `dict` (association list in insertion order). -/
inductive Json where
  | null
  | jbool (b : Bool)
  | jnum (n : Int)
  | jstr (s : String)
  | jarr (xs : List Json)
  | jobj (kvs : List (String × Json))

/-- Python `v == k` where `k` is a `str`: true only when `v` is an equal
string (equality between a string and any other decoded type is false). -/
def jsonEqStr (v : Json) (k : String) : Bool :=
  match v with
  | .jstr s => s.data == k.data
  | _ => false

/-- Python `k in v` for a string key `k`: dict key membership, list
element equality, substring test on strings, `TypeError` otherwise. -/
def pyContains (v : Json) (k : String) : Except String Bool :=
  match v with
  | .jobj kvs => .ok (kvs.any (fun p => p.1.data == k.data))
  | .jarr xs => .ok (xs.any (fun x => jsonEqStr x k))
  | .jstr s => .ok (strContains s k)
  | _ => .error "TypeError"

/-- Assignment into a Python dict: overwrite in place, else append. -/
def setKey (k : String) (v : Json) : List (String × Json) → List (String × Json)
  | [] => [(k, v)]
  | (k₀, v₀) :: rest =>
    if k₀ = k then (k, v) :: rest else (k₀, v₀) :: setKey k v rest

/-- Python `r[k] = v` for a string key: only dicts support it,
every other decoded type raises `TypeError`. -/
def pySetItem (r : Json) (k : String) (v : Json) : Except String Json :=
  match r with
  | .jobj kvs => .ok (.jobj (setKey k v kvs))
  | _ => .error "TypeError"

/-- First value stored under `k` (Python dicts have unique keys). -/
def jlookup (k : String) : List (String × Json) → Option Json
  | [] => none
  | (k₀, v₀) :: rest => if k₀ = k then some v₀ else jlookup k rest

/-- Python `r[k]` for a string key: dict lookup (`KeyError` when absent),
`TypeError` on every other decoded type. -/
def pyGetItem (r : Json) (k : String) : Except String Json :=
  match r with
  | .jobj kvs =>
    match jlookup k kvs with
    | some v => .ok v
    | none => .error "KeyError"
  | _ => .error "TypeError"

/-- Embedding of `if k not in result: result[k] = dflt` — the normalization idiom used
by both parsers. -/
def ensureKey (k : String) (dflt : Json) (r : Json) : Except String Json := do
  let c ← pyContains r k
  if c then pure r else pySetItem r k dflt

/-- The list comprehension at src/agents/judge_agent.py lines 60-64:
`[issue["description"] for issue in issues if issue.get("severity") ==
"critical"]` over an already-obtained list.  A non-dict element raises
`AttributeError` at `issue.get`; a critical issue without `description`
raises `KeyError`. -/
def collectBlocking : List Json → Except String (List Json)
  | [] => .ok []
  | issue :: rest =>
    match issue with
    | .jobj kvs =>
      if (match jlookup "severity" kvs with
          | some v => jsonEqStr v "critical"
          | none => false) then
        match jlookup "description" kvs with
        | some d => do
          let tl ← collectBlocking rest
          .ok (d :: tl)
        | none => .error "KeyError"
      else collectBlocking rest
    | _ => .error "AttributeError"

/-- Iterating the comprehension's source `result["issues_found"]`: a list
iterates its elements; a non-empty string or dict iterates strings (its
characters or keys), whose `.get` raises `AttributeError`; numbers,
booleans and `None` raise `TypeError` (not iterable). -/
def blockingFrom (v : Json) : Except String (List Json) :=
  match v with
  | .jarr xs => collectBlocking xs
  | .jstr s => if s.data.isEmpty then .ok [] else .error "AttributeError"
  | .jobj kvs => if kvs.isEmpty then .ok [] else .error "AttributeError"
  | _ => .error "TypeError"

/-- The markdown-fence stripping shared by both `parse` methods
(src/agents/judge_agent.py lines 23-33, src/agents/auditor_agent.py lines
24-34): prefer a block opened by three backticks followed by `json`, else
any block opened by three backticks, else the whole text; in each case the
payload runs to the next three-backtick fence — `text.find` returning
`-1` when the closing fence is missing, so that the Python slice
`text[start:-1]` drops the final character — and is then stripped of
surrounding whitespace. -/
def extractPayloadL (text : List Char) : List Char :=
  let fence := [Char.ofNat 96, Char.ofNat 96, Char.ofNat 96]
  let jsonFence := fence ++ ['j', 's', 'o', 'n']
  match firstOcc jsonFence text with
  | some i =>
    let after := text.drop (i + 7)
    match firstOcc fence after with
    | some j => pyStrip (after.take j)
    | none => pyStrip after.dropLast
  | none =>
    match firstOcc fence text with
    | some i =>
      let after := text.drop (i + 3)
      match firstOcc fence after with
      | some j => pyStrip (after.take j)
      | none => pyStrip after.dropLast
    | none => pyStrip text

/-- Function `extractPayloadL` lifted to `String`. -/
def extractPayload (text : String) : String := ⟨extractPayloadL text.data⟩

/-- The typed fallback the Judge parser synthesizes when `json.loads`
raises `JSONDecodeError` (src/agents/judge_agent.py lines 68-85): verdict
`NEEDS_REVISION`, one synthetic issue of category `parsing_error` with
severity `critical`, `requires_revision` true. -/
def judgeFallback (e : String) (text : String) : Json :=
  .jobj
    [("verdict", .jstr "NEEDS_REVISION"),
     ("overall_score", .jnum 0),
     ("assessment", .jobj []),
     ("issues_found", .jarr
       [.jobj
         [("severity", .jstr "critical"),
          ("category", .jstr "parsing_error"),
          ("description", .jstr ("Failed to parse LLM judgment response: " ++ e)),
          ("location", .jstr "general"),
          ("recommendation", .jstr "Review raw response")]]),
     ("strengths", .jarr []),
     ("summary", .jstr "Failed to parse judgment"),
     ("requires_revision", .jbool true),
     ("blocking_issues", .jarr [.jstr "Failed to parse judgment response"]),
     ("raw_response", .jstr (pyTake500 text))]

/-- The normalization the Judge parser performs on a decoded value
(src/agents/judge_agent.py lines 37-66), in source order; an `.error`
value is an uncaught exception escaping `parse`. -/
def normalizeJudgment (j : Json) : Except String Json := do
  let j ← ensureKey "verdict" (.jstr "NEEDS_REVISION") j
  let j ← ensureKey "overall_score" (.jnum 0) j
  let j ← ensureKey "assessment" (.jobj []) j
  let j ← ensureKey "issues_found" (.jarr []) j
  let j ← ensureKey "strengths" (.jarr []) j
  let j ← ensureKey "summary" (.jstr "No summary provided") j
  let j ← do
    let c ← pyContains j "requires_revision"
    if c then pure j
    else do
      let v ← pyGetItem j "verdict"
      pySetItem j "requires_revision"
        (.jbool (jsonEqStr v "REJECTED" || jsonEqStr v "NEEDS_REVISION"))
  let c ← pyContains j "blocking_issues"
  if c then pure j
  else do
    let isf ← pyGetItem j "issues_found"
    let bs ← blockingFrom isf
    pySetItem j "blocking_issues" (.jarr bs)

/-- Embedding of `JudgmentOutputParser.parse` (src/agents/judge_agent.py lines 20-85):
fence stripping, `json.loads` with only `JSONDecodeError` caught (the
fallback), then normalization whose dynamic-type errors are uncaught. -/
def JudgmentOutputParser.parse (loads : String → Except String Json)
    (text : String) : Except String Json :=
  match loads (extractPayload text) with
  | .error e => .ok (judgeFallback e text)
  | .ok j => normalizeJudgment j

/-- The typed fallback the Auditor parser synthesizes when `json.loads`
raises `JSONDecodeError` (src/agents/auditor_agent.py lines 52-67): one
synthetic issue of category `parsing_error` with severity `low`. -/
def auditorFallback (e : String) (text : String) : Json :=
  .jobj
    [("issues", .jarr
       [.jobj
         [("file", .jstr "N/A"),
          ("severity", .jstr "low"),
          ("category", .jstr "parsing_error"),
          ("description", .jstr ("Failed to parse LLM response: " ++ e)),
          ("recommendation", .jstr "Review raw response"),
          ("raw_response", .jstr (pyTake500 text))]]),
     ("summary", .jobj
       [("total_issues", .jnum 1),
        ("high_severity", .jnum 0),
        ("medium_severity", .jnum 0),
        ("low_severity", .jnum 1)])]

/-- Embedding of `len([i for i in issues if i.get("severity") == sev])` over an
already-obtained list (src/agents/auditor_agent.py lines 44-46): a
non-dict element raises `AttributeError` at `i.get`. -/
def countSeverity (sev : String) : List Json → Except String Int
  | [] => .ok 0
  | i :: rest =>
    match i with
    | .jobj kvs => do
      let n ← countSeverity sev rest
      if (match jlookup "severity" kvs with
          | some v => jsonEqStr v sev
          | none => false) then .ok (n + 1)
      else .ok n
    | _ => .error "AttributeError"

/-- The summary dictionary built at src/agents/auditor_agent.py lines
42-47 from `result["issues"]`: `len` works on lists, strings and dicts
(`TypeError` otherwise), and the three severity comprehensions iterate it
(`AttributeError` on the `.get` of a string element, as for a non-empty
string or dict source). -/
def summaryFrom (issues : Json) : Except String Json :=
  match issues with
  | .jarr xs => do
    let h ← countSeverity "high" xs
    let m ← countSeverity "medium" xs
    let l ← countSeverity "low" xs
    .ok (.jobj
      [("total_issues", .jnum (Int.ofNat xs.length)),
       ("high_severity", .jnum h),
       ("medium_severity", .jnum m),
       ("low_severity", .jnum l)])
  | .jstr s =>
    if s.data.isEmpty then
      .ok (.jobj
        [("total_issues", .jnum 0), ("high_severity", .jnum 0),
         ("medium_severity", .jnum 0), ("low_severity", .jnum 0)])
    else .error "AttributeError"
  | .jobj kvs =>
    if kvs.isEmpty then
      .ok (.jobj
        [("total_issues", .jnum 0), ("high_severity", .jnum 0),
         ("medium_severity", .jnum 0), ("low_severity", .jnum 0)])
    else .error "AttributeError"
  | _ => .error "TypeError"

/-- Embedding of `JSONOutputParser.parse` (src/agents/auditor_agent.py lines 21-67):
fence stripping, `json.loads` with only `JSONDecodeError` caught (the
fallback), then the `issues`/`summary` normalization whose dynamic-type
errors are uncaught. -/
def JSONOutputParser.parse (loads : String → Except String Json)
    (text : String) : Except String Json :=
  match loads (extractPayload text) with
  | .error e => .ok (auditorFallback e text)
  | .ok j => do
    let j ← ensureKey "issues" (.jarr []) j
    let c ← pyContains j "summary"
    if c then pure j
    else do
      let isv ← pyGetItem j "issues"
      let s ← summaryFrom isv
      pySetItem j "summary" s

/-- Modelled from the Python standard library boundary: `json.loads`
evaluated on the one concrete literal the refutation of parse totality
needs.  The standard library decodes the text `[]` to the empty list.
Every other input is mapped to a decode error, which `parse` catches, so
this stub is only consulted at `[]`. -/
def loadsEmptyList (s : String) : Except String Json :=
  if s = "[]" then .ok (.jarr []) else .error "Expecting value"

/-! ## Rate limiting

`BaseAgent._wait_for_rate_limit` (src/agents/base_agent.py lines 116-125)
and `QuotaManager.check_and_record` (src/utils/quota_manager.py lines
35-59).  Wall-clock time (`time.time()`, a float of seconds) is modelled
by rationals.  Each call reads the clock twice: `t1` on entry (line 118,
resp. 46) and `t2` after the conditional sleep, when the shared
last-call timestamp is overwritten (line 125, resp. 57).  The only fact
the OS guarantees about `time.sleep(w)` is that at least `w` seconds pass,
so a trace of clock reads is admissible when every `t2` is at least `t1`
plus the computed sleep duration. -/

/-- Sleep duration computed by `_wait_for_rate_limit` (src/agents/
base_agent.py lines 118-123): `interval - elapsed` when the time since
the last recorded request is below the interval, else no sleep. -/
def sleepNeeded (last interval t1 : ℚ) : ℚ :=
  if t1 - last < interval then interval - (t1 - last) else 0

/-- Embedding of `BaseAgent._wait_for_rate_limit` (src/agents/base_agent.py
lines 116-125): given the shared `_last_request_time` and the two clock
reads, return the new shared timestamp (the second clock read, line 125)
and the sleep duration that was requested. -/
def wait_for_rate_limit (last interval t1 t2 : ℚ) : ℚ × ℚ :=
  (t2, sleepNeeded last interval t1)

/-- Admissibility of a trace of clock-read pairs `(t1, t2)` for a run of
calls through `_wait_for_rate_limit` with the shared timestamp threaded
through: each call's second clock read is at least its first plus the
sleep it requested, and the shared timestamp becomes that second read. -/
def validTrace (interval : ℚ) : ℚ → List (ℚ × ℚ) → Bool
  | _, [] => true
  | last, (t1, t2) :: rest =>
    decide (t1 + sleepNeeded last interval t1 ≤ t2) && validTrace interval t2 rest

/-- State of the `QuotaManager` singleton (src/utils/quota_manager.py
lines 24-33) as far as `check_and_record` touches it. -/
structure QMState where
  callCount : Nat
  lastCallTime : ℚ
  minDelay : ℚ
deriving DecidableEq, Repr

/-- Sleep duration computed by `QuotaManager.check_and_record`
(src/utils/quota_manager.py lines 46-52). -/
def qmSleepNeeded (s : QMState) (t1 : ℚ) : ℚ :=
  if t1 - s.lastCallTime < s.minDelay then s.minDelay - (t1 - s.lastCallTime) else 0

/-- Embedding of `QuotaManager.check_and_record` (src/utils/quota_manager.py
lines 35-59): after the conditional sleep it increments the call counter,
overwrites `last_call_time` with the second clock read `t2` (line 57), and
returns `True`. -/
def check_and_record (s : QMState) (t2 : ℚ) : QMState × Bool :=
  (⟨s.callCount + 1, t2, s.minDelay⟩, true)

end Swarm

namespace Swarm

/-! ## Helper lemmas about the self-healing loop -/

/-- The fixer stage runs at most once per available iteration. -/
theorem loopFrom_fixerCalls_le (fixOk : Nat → Bool) (dec : Nat → String) :
    ∀ (rem i f j : Nat),
      (loopFrom fixOk dec f j i rem).fixerStageCalls ≤ f + rem := by
  intro rem
  induction rem with
  | zero => intro i f j; simp [loopFrom]
  | succ n ih =>
    intro i f j
    by_cases hf : fixOk i
    · by_cases hd : dec i = "SUCCESS"
      · simp [loopFrom, hf, hd]
      · have := ih (i + 1) (f + 1) (j + 1)
        simp [loopFrom, hf, hd]
        omega
    · simp [loopFrom, hf]

/-- The judge stage runs at most once per available iteration. -/
theorem loopFrom_judgeCalls_le (fixOk : Nat → Bool) (dec : Nat → String) :
    ∀ (rem i f j : Nat),
      (loopFrom fixOk dec f j i rem).judgeStageCalls ≤ j + rem := by
  intro rem
  induction rem with
  | zero => intro i f j; simp [loopFrom]
  | succ n ih =>
    intro i f j
    by_cases hf : fixOk i
    · by_cases hd : dec i = "SUCCESS"
      · simp [loopFrom, hf, hd]
      · have := ih (i + 1) (f + 1) (j + 1)
        simp [loopFrom, hf, hd]
        omega
    · simp [loopFrom, hf]

/-- When the judge never answers `"SUCCESS"`, the loop can only end with
status `"MAX_ITERATIONS"` (whether it runs out of budget or the fixer
stage breaks out early). -/
theorem loopFrom_status_no_success (fixOk : Nat → Bool) (dec : Nat → String)
    (hdec : ∀ i, dec i ≠ "SUCCESS") :
    ∀ (rem i f j : Nat),
      (loopFrom fixOk dec f j i rem).status = "MAX_ITERATIONS" := by
  intro rem
  induction rem with
  | zero => intro i f j; simp [loopFrom]
  | succ n ih =>
    intro i f j
    by_cases hf : fixOk i
    · simp [loopFrom, hf, hdec i]
      exact ih (i + 1) (f + 1) (j + 1)
    · simp [loopFrom, hf]

/-- When the fixer stage first fails at the `m`-th entered iteration
(counting from 0) and every earlier iteration had a successful fixer stage
and a non-`"SUCCESS"` judge decision, the loop breaks there: status
`"MAX_ITERATIONS"` with the constant `iterations = MAX_ITERATIONS` field,
`m + 1` fixer-stage calls and `m` judge-stage calls. -/
theorem loopFrom_break (fixOk : Nat → Bool) (dec : Nat → String) :
    ∀ (rem m i f j : Nat), m < rem → fixOk (i + m) = false →
      (∀ t, t < m → fixOk (i + t) = true ∧ dec (i + t) ≠ "SUCCESS") →
      loopFrom fixOk dec f j i rem =
        ⟨"MAX_ITERATIONS", some MAX_ITERATIONS, f + m + 1, j + m⟩ := by
  intro rem
  induction rem with
  | zero => intro m i f j hm; omega
  | succ n ih =>
    intro m i f j hm hfail hbefore
    match m with
    | 0 =>
      simp only [Nat.add_zero] at hfail
      simp [loopFrom, hfail]
    | m' + 1 =>
      have h0 := hbefore 0 (by omega)
      simp only [Nat.add_zero] at h0
      have hfail' : fixOk (i + 1 + m') = false := by
        have : i + 1 + m' = i + (m' + 1) := by omega
        rw [this]; exact hfail
      have hbefore' : ∀ t, t < m' →
          fixOk (i + 1 + t) = true ∧ dec (i + 1 + t) ≠ "SUCCESS" := by
        intro t ht
        have : i + 1 + t = i + (t + 1) := by omega
        rw [this]; exact hbefore (t + 1) (by omega)
      have := ih m' (i + 1) (f + 1) (j + 1) (by omega) hfail' hbefore'
      have e1 : f + (m' + 1) + 1 = f + 1 + m' + 1 := by omega
      have e2 : j + (m' + 1) = j + 1 + m' := by omega
      simp only [loopFrom, h0.1, if_true, if_neg h0.2]
      rw [e1, e2]
      exact this

/-! ## Claim C8 -/

/-- C8: if the audit reports zero total issues, `RefactoringOrchestrator.run`
returns immediately with status `SUCCESS` and `iterations = 0`, and
neither the fixer stage nor the judge stage is ever invoked in that run. -/
theorem C8_zero_issues_immediate_success :
    ∀ (fixOk : Nat → Bool) (dec : Nat → String),
      run (.ok 0) fixOk dec = ⟨"SUCCESS", some 0, 0, 0⟩ :=
  fun _ _ => rfl

/-! ## Claim C7 -/

/-- C7: for every sequence of judge decisions (and fixer outcomes), the
self-healing loop of `run` executes at most `MAX_ITERATIONS = 10`
iterations — at most ten fixer-stage and ten judge-stage invocations — and
terminates; a `"SUCCESS"` decision on the first pass ends the run after
exactly one iteration with `iterations = 1`; and when no iteration's
decision is `"SUCCESS"`, the returned status is `MAX_ITERATIONS`. -/
theorem C7_loop_budget_and_termination :
    MAX_ITERATIONS = 10
    ∧ (∀ (audit : AuditOutcome) (fixOk : Nat → Bool) (dec : Nat → String),
        (run audit fixOk dec).fixerStageCalls ≤ MAX_ITERATIONS
        ∧ (run audit fixOk dec).judgeStageCalls ≤ MAX_ITERATIONS)
    ∧ (∀ (total : Nat) (fixOk : Nat → Bool) (dec : Nat → String),
        total ≠ 0 → fixOk 1 = true → dec 1 = "SUCCESS" →
        run (.ok total) fixOk dec = ⟨"SUCCESS", some 1, 1, 1⟩)
    ∧ (∀ (total : Nat) (fixOk : Nat → Bool) (dec : Nat → String),
        total ≠ 0 → (∀ i, dec i ≠ "SUCCESS") →
        (run (.ok total) fixOk dec).status = "MAX_ITERATIONS") := by
  refine ⟨rfl, ?_, ?_, ?_⟩
  · intro audit fixOk dec
    match audit with
    | .err => exact ⟨by simp [run], by simp [run]⟩
    | .ok total =>
      by_cases h : total = 0
      · subst h; exact ⟨by simp [run], by simp [run]⟩
      · constructor
        · simpa [run, h] using loopFrom_fixerCalls_le fixOk dec MAX_ITERATIONS 1 0 0
        · simpa [run, h] using loopFrom_judgeCalls_le fixOk dec MAX_ITERATIONS 1 0 0
  · intro total fixOk dec htotal hfix hdec
    simp [run, htotal, MAX_ITERATIONS, loopFrom, hfix, hdec]
  · intro total fixOk dec htotal hdec
    simpa [run, htotal] using
      loopFrom_status_no_success fixOk dec hdec MAX_ITERATIONS 1 0 0

/-- Witness for C7 at concrete inputs. -/
theorem C7_loop_budget_witness :
    run (.ok 2) (fun _ => true) (fun _ => "SUCCESS") = ⟨"SUCCESS", some 1, 1, 1⟩
    ∧ (run (.ok 2) (fun _ => true) (fun _ => "RETRY")).status = "MAX_ITERATIONS" :=
  ⟨C7_loop_budget_and_termination.2.2.1 2 (fun _ => true) (fun _ => "SUCCESS")
      (by decide) rfl rfl,
   C7_loop_budget_and_termination.2.2.2 2 (fun _ => true) (fun _ => "RETRY")
      (by decide) (fun i => by show ("RETRY" : String) ≠ "SUCCESS"; decide)⟩

/-! ## Claim C1 -/

/-- C1 as stated is false on the code: when the fixer stage fails outright
at the first iteration, `run` breaks out of the loop but falls through to
the budget-exhaustion return, so its status is `"MAX_ITERATIONS"`, not the
`"FAILED"` the claim requires. -/
theorem C1_counterexample :
    (run (.ok 1) (fun _ => false) (fun _ => "RETRY")).status = "MAX_ITERATIONS"
    ∧ (run (.ok 1) (fun _ => false) (fun _ => "RETRY")).status ≠ "FAILED" := by
  decide

/-- C1 amended: whenever the fixer stage fails outright at iteration `k`
(after `k - 1` iterations of successful fixes and non-`"SUCCESS"` judge
decisions), `run` does abort the loop immediately — the fixer stage is
invoked exactly `k` times and the judge stage exactly `k - 1` times — but
the returned result has status `MAX_ITERATIONS` with the `iterations`
field reported as `MAX_ITERATIONS`, the same terminal value as budget
exhaustion, rather than the distinct `FAILED` status (which the code
reserves for audit-phase errors). -/
theorem C1_fixer_failure_breaks_not_failed
    (total k : Nat) (fixOk : Nat → Bool) (dec : Nat → String)
    (htotal : total ≠ 0) (hk1 : 1 ≤ k) (hk2 : k ≤ MAX_ITERATIONS)
    (hfail : fixOk k = false)
    (hbefore : ∀ i, 1 ≤ i → i < k → fixOk i = true ∧ dec i ≠ "SUCCESS") :
    run (.ok total) fixOk dec =
      ⟨"MAX_ITERATIONS", some MAX_ITERATIONS, k, k - 1⟩ := by
  have hfail' : fixOk (1 + (k - 1)) = false := by
    have : 1 + (k - 1) = k := by omega
    rw [this]; exact hfail
  have hbefore' : ∀ t, t < k - 1 →
      fixOk (1 + t) = true ∧ dec (1 + t) ≠ "SUCCESS" := by
    intro t ht
    exact hbefore (1 + t) (by omega) (by omega)
  have hk2' : k ≤ 10 := hk2
  have hbreak := loopFrom_break fixOk dec MAX_ITERATIONS (k - 1) 1 0 0
    (by show k - 1 < 10; omega) hfail' hbefore'
  have e1 : 0 + (k - 1) + 1 = k := by omega
  have e2 : 0 + (k - 1) = k - 1 := by omega
  rw [e1, e2] at hbreak
  simp only [run, if_neg htotal]
  exact hbreak

/-- Witness for the amended C1 at a concrete input: fixer fails at the
first iteration. -/
theorem C1_fixer_failure_witness :
    run (.ok 5) (fun _ => false) (fun _ => "RETRY") =
      ⟨"MAX_ITERATIONS", some MAX_ITERATIONS, 1, 1 - 1⟩ :=
  C1_fixer_failure_breaks_not_failed 5 1 (fun _ => false) (fun _ => "RETRY")
    (by decide) (by decide) (by decide) rfl (fun i h1 h2 => by omega)

/-! ## Helper lemmas about `FixerAgent.apply_fix` -/

/-- Data of a `String` determines the string. -/
theorem strData_inj {p r : String} : p.data = r.data ↔ p = r :=
  ⟨fun h => by cases p; cases r; exact congrArg String.mk h, fun h => by rw [h]⟩

/-- With well-formed fields, a missing verbatim occurrence of
`original_code` makes `apply_fix` return the mismatch error and leave the
file content exactly as it was. -/
theorem fixer_mismatch_unmodified (f o x c : String) (dr : Bool)
    (log : List LogEntry) (hf : f ≠ "") (hocc : strContains c o = false) :
    FixerAgent.apply_fix ⟨some f, some o, some x⟩ (some c) dr log =
      (.result "ERROR" "Original code not found in file - code may have changed",
        some c, log) := by
  simp [FixerAgent.apply_fix, hf, hocc]

/-- The file content changes across a call to `apply_fix` only on the
non-dry-run path where all fields are present and `original_code` occurs
verbatim in the current content; the new content is then Python's
`content.replace(original_code, fixed_code, 1)`. -/
theorem fixer_modified_implies_match (fix : Fix) (fc : Option String)
    (dr : Bool) (log : List LogEntry)
    (h : (FixerAgent.apply_fix fix fc dr log).2.1 ≠ fc) :
    ∃ c o x, fc = some c ∧ fix.original_code = some o ∧ fix.fixed_code = some x
      ∧ strContains c o = true ∧ dr = false
      ∧ (FixerAgent.apply_fix fix fc dr log).2.1 = some (pyReplaceFirst c o x) := by
  obtain ⟨fo, oc, xc⟩ := fix
  match fo, oc, xc with
  | none, _, _ => simp [FixerAgent.apply_fix] at h
  | some f, none, _ => simp [FixerAgent.apply_fix] at h
  | some f, some o, none => simp [FixerAgent.apply_fix] at h
  | some f, some o, some x =>
    by_cases hf : f = ""
    · simp [FixerAgent.apply_fix, hf] at h
    · match fc with
      | none => simp [FixerAgent.apply_fix, hf] at h
      | some c =>
        by_cases hocc : strContains c o = false
        · simp [FixerAgent.apply_fix, hf, hocc] at h
        · have hocc' : strContains c o = true := by
            simpa using hocc
          by_cases hdr : dr = true
          · simp [FixerAgent.apply_fix, hf, hocc', hdr] at h
          · have hdr' : dr = false := by simpa using hdr
            refine ⟨c, o, x, rfl, rfl, rfl, hocc', hdr', ?_⟩
            simp [FixerAgent.apply_fix, hf, hocc', hdr', log_experiment]

/-! ## Claim C2 -/

/-- C2 as stated is false on the code: the guard `is_safe_path` of
`src/tools/file_tools.py` accepts the sibling directory `/sandbox_evil`
of the sandbox root `/sandbox`, although that path neither equals the
root nor starts with the root followed by the separator. -/
theorem C2_counterexample :
    is_safe_path "/sandbox_evil" "/sandbox" = true
    ∧ ("/sandbox_evil" : String) ≠ "/sandbox"
    ∧ (("/sandbox" : String).data ++ ['/']).isPrefixOf
        ("/sandbox_evil" : String).data = false := by
  decide

/-- C2 amended: of the two sandbox guards, only `is_path_in_sandbox`
(src/tools/sandbox_manager.py) implements the claimed rule — it accepts a
resolved path exactly when it equals the resolved root or extends it past
a separator; `is_safe_path` (src/tools/file_tools.py) accepts exactly the
paths whose resolved form has the resolved root as a naive string prefix,
so sibling directories such as `/sandbox_evil` pass it. -/
theorem C2_guards_characterized :
    (∀ p r : String, is_path_in_sandbox p r = true ↔
        ((r.data ++ ['/']).isPrefixOf p.data = true ∨ p = r))
    ∧ (∀ p r : String, is_safe_path p r = true ↔
        r.data.isPrefixOf p.data = true) := by
  constructor
  · intro p r
    simp [is_path_in_sandbox, Bool.or_eq_true, strData_inj]
  · intro p r
    exact Iff.rfl

/-- Witness for the amended C2 at concrete paths. -/
theorem C2_guards_witness :
    is_path_in_sandbox "/sandbox/a.py" "/sandbox" = true
    ∧ is_safe_path "/sandbox/a.py" "/sandbox" = true :=
  ⟨(C2_guards_characterized.1 "/sandbox/a.py" "/sandbox").mpr (Or.inl (by decide)),
   (C2_guards_characterized.2 "/sandbox/a.py" "/sandbox").mpr (by decide)⟩

/-! ## Claim C3 -/

/-- C3: `FixerAgent.apply_fix` mutates the file only when
`fix.original_code` occurs byte-for-byte in the current content (first
conjunct: a changed content implies the occurrence held), and when
`original_code` does not occur, it returns the mismatch error result and
leaves the file content completely unmodified (second conjunct). -/
theorem C3_apply_fix_optimistic_guard :
    (∀ (fix : Fix) (fc : Option String) (dr : Bool) (log : List LogEntry),
        (FixerAgent.apply_fix fix fc dr log).2.1 ≠ fc →
        ∃ c o, fc = some c ∧ fix.original_code = some o ∧ strContains c o = true)
    ∧ (∀ (f o x c : String) (dr : Bool) (log : List LogEntry),
        f ≠ "" → strContains c o = false →
        FixerAgent.apply_fix ⟨some f, some o, some x⟩ (some c) dr log =
          (.result "ERROR" "Original code not found in file - code may have changed",
            some c, log)) := by
  constructor
  · intro fix fc dr log h
    obtain ⟨c, o, x, h1, h2, _, h4, _, _⟩ := fixer_modified_implies_match fix fc dr log h
    exact ⟨c, o, h1, h2, h4⟩
  · intro f o x c dr log hf hocc
    exact fixer_mismatch_unmodified f o x c dr log hf hocc

/-- Witness for C3 at a concrete stale fix. -/
theorem C3_apply_fix_witness :
    FixerAgent.apply_fix ⟨some "a.py", some "q", some "y"⟩ (some "wxz") false [] =
      (.result "ERROR" "Original code not found in file - code may have changed",
        some "wxz", []) :=
  C3_apply_fix_optimistic_guard.2 "a.py" "q" "y" "wxz" false []
    (by decide) (by decide)

/-! ## Claim C6 -/

/-- C6: for every fix passing validation in a non-dry-run call,
`FixerAgent.apply_fix` first writes `content.replace(original_code,
fixed_code, 1)` to the file and then raises `ValueError` instead of
returning its `SUCCESS` result: the success-path `log_experiment` call
passes `details` keys `{file, explanation, confidence}` and is rejected
for the missing `input_prompt`, and the exception handler's own
`log_experiment` call passes `{file, error, error_type}` and is rejected
the same way, so the `ValueError` propagates to the caller although the
file has already been mutated. -/
theorem C6_success_path_raises_after_write
    (f o x c : String) (log : List LogEntry) (hf : f ≠ "")
    (hocc : strContains c o = true) :
    log_experiment ["file", "explanation", "confidence"] log
        = (some .missingInputPrompt, log)
    ∧ log_experiment ["file", "error", "error_type"] log
        = (some .missingInputPrompt, log)
    ∧ FixerAgent.apply_fix ⟨some f, some o, some x⟩ (some c) false log =
        (.raised .missingInputPrompt, some (pyReplaceFirst c o x), log) := by
  refine ⟨by simp [log_experiment], by simp [log_experiment], ?_⟩
  simp [FixerAgent.apply_fix, hf, hocc, log_experiment]

/-- Witness for C6 at a concrete valid fix. -/
theorem C6_success_path_witness :
    log_experiment ["file", "explanation", "confidence"] []
        = (some .missingInputPrompt, [])
    ∧ log_experiment ["file", "error", "error_type"] []
        = (some .missingInputPrompt, [])
    ∧ FixerAgent.apply_fix ⟨some "a.py", some "x", some "y"⟩ (some "wxz") false [] =
        (.raised .missingInputPrompt, some (pyReplaceFirst "wxz" "x" "y"), []) :=
  C6_success_path_raises_after_write "a.py" "x" "y" "wxz" []
    (by decide) (by decide)

/-! ## Claim C5 -/

/-- C5 as stated is false on the code: `FixerAgent.apply_fix` applies a
fix — here replacing the entire content `a` by `(` — without any syntax
validation of `fixed_code`, so it persists content that fails even the
balanced-parentheses necessary condition of `ast.parse`; the file content
did change, from `a` to the invalid `(`. -/
theorem C5_counterexample :
    (FixerAgent.apply_fix ⟨some "a.py", some "a", some "("⟩
        (some "a") false []).2.1 = some "("
    ∧ balancedParens "(" = false
    ∧ (some "(" : Option String) ≠ some "a" := by
  decide

/-- C5 amended: the three persistence preconditions are split between the
two code paths instead of being checked together on each.
`code_modifier.apply_fix` persists only when the syntax of `fixed_code`
validates and the write succeeds, and then the new content is exactly
`fixed_code` (it never checks `original_code`); `FixerAgent.apply_fix`
persists only when `original_code` occurs verbatim in the live content
(it never validates syntax, as the counterexample shows). -/
theorem C5_persist_preconditions :
    (∀ (validate : String → Bool) (pathOk : Bool) (fixed content : String)
        (writeOk : Bool) (r : CMResult),
        CodeModifier.apply_fix validate pathOk fixed content writeOk = .ok r →
        r.content ≠ content →
        validate fixed = true ∧ writeOk = true ∧ r.content = fixed)
    ∧ (∀ (fix : Fix) (fc : Option String) (dr : Bool) (log : List LogEntry),
        (FixerAgent.apply_fix fix fc dr log).2.1 ≠ fc →
        ∃ c o x, fc = some c ∧ fix.original_code = some o
          ∧ fix.fixed_code = some x ∧ strContains c o = true
          ∧ (FixerAgent.apply_fix fix fc dr log).2.1
              = some (pyReplaceFirst c o x)) := by
  constructor
  · intro validate pathOk fixed content writeOk r hok hne
    match pathOk with
    | false => simp [CodeModifier.apply_fix] at hok
    | true =>
      by_cases hv : validate fixed = false
      · simp [CodeModifier.apply_fix, hv] at hok
        rw [← hok] at hne
        simp at hne
      · have hv' : validate fixed = true := by simpa using hv
        match writeOk with
        | true =>
          simp [CodeModifier.apply_fix, hv'] at hok
          exact ⟨hv', rfl, by rw [← hok]⟩
        | false =>
          simp [CodeModifier.apply_fix, hv'] at hok
          rw [← hok] at hne
          simp at hne
  · intro fix fc dr log h
    obtain ⟨c, o, x, h1, h2, h3, h4, _, h6⟩ :=
      fixer_modified_implies_match fix fc dr log h
    exact ⟨c, o, x, h1, h2, h3, h4, h6⟩

/-- Witness for the amended C5 at a concrete persisted fix. -/
theorem C5_persist_witness :
    ((fun _ : String => true) "b" = true) ∧ (true = true)
    ∧ (CMResult.mk true "b").content = "b" :=
  C5_persist_preconditions.1 (fun _ => true) true "b" "a" true ⟨true, "b"⟩
    rfl (by decide)

/-! ## Claim C4 -/

/-- C4 as stated is false on the code: on the input `[]` — valid JSON
whose top-level value is not an object — both parsers' normalization code
attempts a dictionary item assignment on the decoded list, raising an
uncaught `TypeError` (only `json.JSONDecodeError` is caught), so `parse`
does throw.  The stub decoder records the standard library's decoding of
the literal `[]`. -/
theorem C4_counterexample :
    JudgmentOutputParser.parse loadsEmptyList "[]" = .error "TypeError"
    ∧ JSONOutputParser.parse loadsEmptyList "[]" = .error "TypeError" :=
  ⟨rfl, rfl⟩

/-- C4 amended: whenever strict decoding of the fence-stripped payload
fails with a decode error — in particular on the empty string, non-JSON
prose and truncated fences, where `json.loads` raises `JSONDecodeError` —
each parser returns its typed fallback without throwing: the Judge
fallback has verdict `NEEDS_REVISION` and a single synthetic
`parsing_error` issue of severity `critical`, the Auditor fallback a
single synthetic `parsing_error` issue of severity `low`.  Totality does
not extend to payloads that decode to non-object JSON (see the
counterexample). -/
theorem C4_parse_fallback_on_decode_error :
    ∀ (loads : String → Except String Json) (text e : String),
      loads (extractPayload text) = .error e →
      JudgmentOutputParser.parse loads text = .ok (judgeFallback e text)
      ∧ JSONOutputParser.parse loads text = .ok (auditorFallback e text)
      ∧ pyGetItem (judgeFallback e text) "verdict" = .ok (.jstr "NEEDS_REVISION")
      ∧ pyGetItem (judgeFallback e text) "issues_found"
          = .ok (.jarr [.jobj
              [("severity", .jstr "critical"),
               ("category", .jstr "parsing_error"),
               ("description",
                 .jstr ("Failed to parse LLM judgment response: " ++ e)),
               ("location", .jstr "general"),
               ("recommendation", .jstr "Review raw response")]])
      ∧ pyGetItem (auditorFallback e text) "issues"
          = .ok (.jarr [.jobj
              [("file", .jstr "N/A"),
               ("severity", .jstr "low"),
               ("category", .jstr "parsing_error"),
               ("description", .jstr ("Failed to parse LLM response: " ++ e)),
               ("recommendation", .jstr "Review raw response"),
               ("raw_response", .jstr (pyTake500 text))]]) := by
  intro loads text e h
  refine ⟨?_, ?_, ?_, ?_, ?_⟩
  · simp [JudgmentOutputParser.parse, h]
  · simp [JSONOutputParser.parse, h]
  · simp [judgeFallback, pyGetItem, jlookup]
  · simp [judgeFallback, pyGetItem, jlookup]
  · simp [auditorFallback, pyGetItem, jlookup]

/-- Witness for the amended C4 on a concrete non-JSON text. -/
theorem C4_parse_fallback_witness :
    JudgmentOutputParser.parse (fun _ => .error "boom") "oops"
      = .ok (judgeFallback "boom" "oops")
    ∧ JSONOutputParser.parse (fun _ => .error "boom") "oops"
      = .ok (auditorFallback "boom" "oops") :=
  ⟨(C4_parse_fallback_on_decode_error (fun _ => .error "boom") "oops" "boom" rfl).1,
   (C4_parse_fallback_on_decode_error (fun _ => .error "boom") "oops" "boom" rfl).2.1⟩

/-! ## Claim C9 -/

/-- Release-time bound of one rate-limited call: when the second clock
read is at least the first plus the computed sleep, the call completes no
earlier than the previous recorded timestamp plus the interval. -/
theorem sleep_release (last interval t1 t2 : ℚ)
    (h : t1 + sleepNeeded last interval t1 ≤ t2) : last + interval ≤ t2 := by
  unfold sleepNeeded at h
  by_cases hc : t1 - last < interval
  · rw [if_pos hc] at h
    linarith
  · rw [if_neg hc] at h
    have := not_lt.mp hc
    linarith

/-- C9: the computed sleep is exactly the remaining part of the interval
when less than the interval has elapsed (first conjunct); a single call
through `_wait_for_rate_limit` completes at least `interval` after the
previous recorded timestamp and overwrites the shared timestamp with its
completion clock read (second conjunct); along any admissible trace of
calls the completion times are therefore spaced at least `interval`
apart, starting from the previous recorded timestamp (third conjunct);
and `QuotaManager.check_and_record` obeys the same floor with its
`min_delay`, recording the post-wait clock read and incrementing the
shared call counter (fourth conjunct). -/
theorem C9_rate_floor :
    (∀ last interval t1 : ℚ, t1 - last < interval →
        sleepNeeded last interval t1 = interval - (t1 - last))
    ∧ (∀ last interval t1 t2 : ℚ,
        t1 + sleepNeeded last interval t1 ≤ t2 →
        last + interval ≤ t2 ∧ (wait_for_rate_limit last interval t1 t2).1 = t2)
    ∧ (∀ (interval last : ℚ) (trace : List (ℚ × ℚ)),
        validTrace interval last trace = true →
        List.Chain (fun a b => a + interval ≤ b) last (trace.map Prod.snd))
    ∧ (∀ (s : QMState) (t1 t2 : ℚ),
        t1 + qmSleepNeeded s t1 ≤ t2 →
        s.lastCallTime + s.minDelay ≤ t2
        ∧ (check_and_record s t2).1.lastCallTime = t2
        ∧ (check_and_record s t2).1.callCount = s.callCount + 1) := by
  refine ⟨?_, ?_, ?_, ?_⟩
  · intro last interval t1 hc
    unfold sleepNeeded
    rw [if_pos hc]
  · intro last interval t1 t2 h
    exact ⟨sleep_release last interval t1 t2 h, rfl⟩
  · intro interval last trace
    revert last
    induction trace with
    | nil => intro last _; exact List.Chain.nil
    | cons p rest ih =>
      intro last h
      obtain ⟨t1, t2⟩ := p
      rw [validTrace, Bool.and_eq_true, decide_eq_true_iff] at h
      exact List.Chain.cons (sleep_release last interval t1 t2 h.1) (ih t2 h.2)
  · intro s t1 t2 h
    refine ⟨?_, rfl, rfl⟩
    unfold qmSleepNeeded at h
    by_cases hc : t1 - s.lastCallTime < s.minDelay
    · rw [if_pos hc] at h
      linarith
    · rw [if_neg hc] at h
      have := not_lt.mp hc
      linarith

/-- Witness for C9 on a concrete trace with interval 1. -/
theorem C9_rate_floor_witness :
    List.Chain (fun a b : ℚ => a + 1 ≤ b) 0 ([((0 : ℚ), (1 : ℚ)), (1, 2)].map Prod.snd) :=
  C9_rate_floor.2.2.1 1 0 [(0, 1), (1, 2)]
    (by norm_num [validTrace, sleepNeeded])

/-! ## Claim C10 -/

/-- C10: `log_experiment` rejects the write with a raised error whenever
`details` lacks `input_prompt` or `output_response`, and the rejection
leaves the log exactly as it was (first conjunct); every entry it does
append carries the seven top-level fields `id`, `timestamp`,
`agent_name`, `model_used`, `action`, `details`, `status`, passes
`validate_log_entry`, and its `details` holds both mandatory keys
(second conjunct). -/
theorem C10_log_schema_enforcement :
    (∀ (dk : List String) (log : List LogEntry),
        ("input_prompt" ∉ dk ∨ "output_response" ∉ dk) →
        ∃ e, log_experiment dk log = (some e, log))
    ∧ (∀ (dk : List String) (log newLog : List LogEntry),
        log_experiment dk log = (none, newLog) →
        ∃ entry, newLog = log ++ [entry]
          ∧ validate_log_entry entry = true
          ∧ "input_prompt" ∈ entry.detailKeys
          ∧ "output_response" ∈ entry.detailKeys
          ∧ entry.keys = ["id", "timestamp", "agent_name", "model_used",
              "action", "details", "status"]) := by
  constructor
  · intro dk log h
    unfold log_experiment
    by_cases h1 : "input_prompt" ∉ dk
    · exact ⟨.missingInputPrompt, by rw [if_pos h1]⟩
    · have h2 : "output_response" ∉ dk := h.resolve_left h1
      exact ⟨.missingOutputResponse, by rw [if_neg h1, if_pos h2]⟩
  · intro dk log newLog h
    unfold log_experiment at h
    by_cases h1 : "input_prompt" ∉ dk
    · rw [if_pos h1] at h
      simp at h
    · rw [if_neg h1] at h
      by_cases h2 : "output_response" ∉ dk
      · rw [if_pos h2] at h
        simp at h
      · rw [if_neg h2] at h
        simp only [Prod.mk.injEq] at h
        have hip : "input_prompt" ∈ dk := not_not.mp h1
        have hor : "output_response" ∈ dk := not_not.mp h2
        refine ⟨_, h.2.symm, ?_, hip, hor, rfl⟩
        simp [validate_log_entry, hip, hor]

/-- Witness for C10 on a concrete rejected write. -/
theorem C10_log_schema_witness :
    ∃ e, log_experiment ["file"] [] = (some e, []) :=
  C10_log_schema_enforcement.1 ["file"] [] (Or.inl (by decide))

end Swarm

